import Mathlib

/-!
# BrandLens — formal model of the logo-analysis app

A shallow embedding of the two source files of the repository:

* `src/App.tsx` — the browser UI: image selection (file picker, drag-and-drop,
  camera capture), the call to the inference API, the report renderer with its
  score-to-tier styling, and the "report suspicious logo" submission.
* `server.ts` — the Express server with the single `POST /api/report-logo`
  route writing one document to a Firestore collection.

JavaScript numbers carrying similarity scores are modelled as `Int`; strings
as `String`; JSON values appearing in request bodies as the inductive `JValue`
(with JavaScript truthiness made explicit); the Firestore collection as a list
of `(id, document)` pairs.
-/

namespace BrandLens

/-! ## The report renderer's score-to-tier classification (App.tsx 438-490)

The renderer repeats one two-threshold conditional at five places:
`similarityPercentage >= 90 ? emerald… : similarityPercentage >= 70 ? amber… : red…`.
`tierOf` is that conditional; the five site functions below each transcribe
one occurrence from the source. -/

inductive Tier where
  | authentic
  | caution
  | suspicious
  deriving DecidableEq, Repr

def tierOf (s : Int) : Tier :=
  if s ≥ 90 then .authentic
  else if s ≥ 70 then .caution
  else .suspicious

/-- App.tsx 438-441: text colour of the big percentage figure. -/
def scoreTextColor (s : Int) : String :=
  if s ≥ 90 then "text-emerald-600"
  else if s ≥ 70 then "text-amber-600"
  else "text-red-600"

/-- App.tsx 465-468: background / border of the assessment box. -/
def assessmentBoxClass (s : Int) : String :=
  if s ≥ 90 then "bg-emerald-50 border-emerald-100"
  else if s ≥ 70 then "bg-amber-50 border-amber-100"
  else "bg-red-50 border-red-100"

inductive Icon where
  | CheckCircle
  | AlertTriangle
  | ShieldAlert
  deriving DecidableEq, Repr

/-- App.tsx 470-476: icon shown in the assessment box. -/
def assessmentIcon (s : Int) : Icon :=
  if s ≥ 90 then .CheckCircle
  else if s ≥ 70 then .AlertTriangle
  else .ShieldAlert

/-- App.tsx 478-481: heading colour of the assessment box. -/
def assessmentHeadingColor (s : Int) : String :=
  if s ≥ 90 then "text-emerald-900"
  else if s ≥ 70 then "text-amber-900"
  else "text-red-900"

/-- App.tsx 482-485: body-text colour of the assessment box. -/
def assessmentTextColor (s : Int) : String :=
  if s ≥ 90 then "text-emerald-700"
  else if s ≥ 70 then "text-amber-700"
  else "text-red-700"

/-! ## Client data model (App.tsx 6-13) -/

/-- App.tsx 6-13: the parsed JSON result of the inference call.  The response
schema (App.tsx 150-161) constrains `similarityPercentage` only to be a
number; no range is enforced anywhere in the code. -/
structure AnalysisResult where
  brandName : String
  companyInfo : String
  foundingBackground : String
  symbolicMeaning : String
  similarityPercentage : Int
  originalityInterpretation : String
  deriving DecidableEq, Repr

/-- An in-memory image file: its `name`, MIME `type`, and the base64 encoding
of its bytes (the part after the comma of `FileReader.readAsDataURL`). -/
structure ImageFile where
  name : String
  type : String
  base64 : String
  deriving DecidableEq, Repr

/-- `FileReader.readAsDataURL` yields a data URL with this shape. -/
def dataUrl (f : ImageFile) : String :=
  "data:" ++ f.type ++ ";base64," ++ f.base64

/-- `URL.createObjectURL`, modelled as an injective tagging of the file. -/
def createObjectURL (f : ImageFile) : String :=
  "blob:" ++ f.name

/-- JavaScript `String.prototype.startsWith`, on the character list. -/
def jsStartsWith (p s : String) : Bool :=
  s.data.take p.data.length == p.data

/-- JavaScript `String.prototype.split` with a one-character separator:
the chunks between occurrences of the separator, empty chunks kept.
Modelled on the character list of the string. -/
def jsSplit (sep : Char) (s : String) : List String :=
  (s.data.splitOn sep).map fun cs => String.mk cs

/-- App.tsx 123: `(reader.result as string).split(",")[1]` — the payload the
analysis path sends to the model (`inlineData.data`, App.tsx 127-132).
JavaScript `split(",")[1]` is the second chunk, `undefined` when absent. -/
def analyzeImagePayload (f : ImageFile) : Option String :=
  (jsSplit ',' (dataUrl f)).get? 1

/-- App.tsx 202/211: the report path sends `reader.result` whole — the full
data URL, prefix included. -/
def reportImagePayload (f : ImageFile) : String :=
  dataUrl f

/-! ## JSON values and JavaScript truthiness

The `/api/report-logo` handler destructures its body and gates on
`!analysis || !imageBase64` (server.ts 43-47): JavaScript truthiness.  A
field absent from the body destructures to `undefined`.  The only object the
in-repo client ever sends in `analysis` is the `AnalysisResult` snapshot,
carried by the `analysisObj` constructor; objects are always truthy. -/

inductive JValue where
  | undefined
  | null
  | boolean (b : Bool)
  | number (n : Int)
  | string (s : String)
  | analysisObj (a : AnalysisResult)
  deriving DecidableEq, Repr

def JValue.truthy : JValue → Bool
  | .undefined => false
  | .null => false
  | .boolean b => b
  | .number n => n ≠ 0
  | .string s => !s.isEmpty
  | .analysisObj _ => true

/-- The JSON body of a `POST /api/report-logo` request (server.ts 43).
A missing field is `JValue.undefined`. -/
structure ReportBody where
  analysis : JValue
  imageBase64 : JValue
  mimeType : JValue
  deriving DecidableEq, Repr

/-! ## Server environment and Firestore model (server.ts 12-33) -/

/-- The environment variables `getFirebaseDb` reads.  `none` is an unset
variable; JavaScript `!x` is also true of the empty string. -/
structure Env where
  FIREBASE_PROJECT_ID : Option String
  FIREBASE_CLIENT_EMAIL : Option String
  FIREBASE_PRIVATE_KEY : Option String
  deriving DecidableEq, Repr

/-- Truthiness of an environment variable (`undefined` or `""` are falsy). -/
def envTruthy : Option String → Bool
  | none => false
  | some s => !s.isEmpty

/-- `replace(/\\n/g, "\n")` on the character list: every backslash-n pair
becomes a newline, scanning left to right. -/
def replaceEscapedNewlines : List Char → List Char
  | [] => []
  | '\\' :: 'n' :: rest => '\n' :: replaceEscapedNewlines rest
  | c :: rest => c :: replaceEscapedNewlines rest

/-- server.ts 18: `process.env.FIREBASE_PRIVATE_KEY?.replace(/\\n/g, "\n")`. -/
def normalizedPrivateKey (env : Env) : Option String :=
  env.FIREBASE_PRIVATE_KEY.map fun s => String.mk (replaceEscapedNewlines s.data)

/-- The credential check of server.ts 20: all three values truthy. -/
def credsOk (env : Env) : Bool :=
  envTruthy env.FIREBASE_PROJECT_ID &&
  envTruthy env.FIREBASE_CLIENT_EMAIL &&
  envTruthy (normalizedPrivateKey env)

/-- server.ts 56-57: `reportedAt` is the `serverTimestamp()` sentinel. -/
inductive FieldValue where
  | serverTimestamp
  deriving DecidableEq, Repr

/-- The document written to the `suspicious_logos` collection
(server.ts 52-58). -/
structure ReportDoc where
  analysis : JValue
  imageBase64 : JValue
  mimeType : JValue
  reportedAt : FieldValue
  status : String
  deriving DecidableEq, Repr

/-- Server-side mutable state: the `firebaseApp` singleton (server.ts 12,
`null` initially, set only by a successful `initializeApp`) and the
`suspicious_logos` collection as a list of `(document id, document)`. -/
structure ServerState where
  firebaseInited : Bool
  docs : List (String × ReportDoc)
  deriving DecidableEq, Repr

def initialServerState : ServerState :=
  { firebaseInited := false, docs := [] }

/-- server.ts 14-33: returns the Firestore handle, initialising the app on
first use; throws when a credential is missing.  The result is the new value
of the `firebaseApp`-is-set flag. -/
def getFirebaseDb (env : Env) (inited : Bool) : Except String Bool :=
  if inited then .ok true
  else if !credsOk env then
    .error "Firebase credentials are not fully configured in environment variables."
  else .ok true

/-- An HTTP response body: `{ error }` or `{ success: true, reportId }`. -/
inductive ResBody where
  | errorBody (error : String)
  | successBody (success : Bool) (reportId : String)
  deriving DecidableEq, Repr

structure Response where
  status : Nat
  body : ResBody
  deriving DecidableEq, Repr

/-- server.ts 41-65: the `POST /api/report-logo` handler.
`nextId` is the auto-generated id of `db.collection(…).doc()`;
`writeOk` says whether the `reportRef.set` call succeeds, and `writeErrMsg`
is the `error.message` of the failure it throws otherwise
(`error.message || "Failed to report logo"` at server.ts 63). -/
def reportLogoHandler (env : Env) (nextId : String) (writeOk : Bool)
    (writeErrMsg : String) (st : ServerState) (body : ReportBody) :
    Response × ServerState :=
  if !body.analysis.truthy || !body.imageBase64.truthy then
    ({ status := 400, body := .errorBody "Missing required fields" }, st)
  else
    match getFirebaseDb env st.firebaseInited with
    | .error msg => ({ status := 500, body := .errorBody msg }, st)
    | .ok inited =>
      if writeOk then
        let doc : ReportDoc :=
          { analysis := body.analysis
            imageBase64 := body.imageBase64
            mimeType := body.mimeType
            reportedAt := .serverTimestamp
            status := "pending_review" }
        ({ status := 200, body := .successBody true nextId },
         { firebaseInited := inited, docs := st.docs ++ [(nextId, doc)] })
      else
        ({ status := 500,
           body := .errorBody
             (if writeErrMsg.isEmpty then "Failed to report logo" else writeErrMsg) },
         { firebaseInited := inited, docs := st.docs })

/-- Server states reachable from startup under a fixed environment, by any
sequence of `/api/report-logo` requests. -/
inductive Reachable (env : Env) : ServerState → Prop where
  | init : Reachable env initialServerState
  | step (nextId : String) (writeOk : Bool) (writeErrMsg : String)
      (body : ReportBody) {st : ServerState} :
      Reachable env st →
      Reachable env (reportLogoHandler env nextId writeOk writeErrMsg st body).2

/-! ## UI state machine (App.tsx 15-232, 386-523)

The `useState` hooks of `App` (App.tsx 16-23), with the event handlers as
transition functions.  A `disabled` button never fires its `onClick`, so the
click transitions model the `disabled` attribute (App.tsx 388, 500) before
the handler body. -/

structure UIState where
  selectedFile : Option ImageFile
  previewUrl : Option String
  isAnalyzing : Bool
  analysis : Option AnalysisResult
  error : Option String
  isReporting : Bool
  reportSuccess : Bool
  isCameraActive : Bool
  deriving DecidableEq, Repr

def initialUIState : UIState :=
  { selectedFile := none, previewUrl := none, isAnalyzing := false
    analysis := none, error := none, isReporting := false
    reportSuccess := false, isCameraActive := false }

/-- App.tsx 86-96: the file-picker change handler; `f` is
`e.target.files?.[0]`. -/
def handleFileSelect (f : Option ImageFile) (st : UIState) : UIState :=
  match f with
  | some file =>
    { st with selectedFile := some file
              previewUrl := some (createObjectURL file)
              analysis := none, error := none, reportSuccess := false }
  | none => st

/-- App.tsx 98-109: the drop handler; only files whose type starts with
`image/` are taken. -/
def handleDrop (f : Option ImageFile) (st : UIState) : UIState :=
  match f with
  | some file =>
    if jsStartsWith "image/" file.type then
      { st with selectedFile := some file
                previewUrl := some (createObjectURL file)
                analysis := none, error := none, reportSuccess := false }
    else st
  | none => st

/-- App.tsx 34-50: `startCamera`; `ok` says whether `getUserMedia` resolved,
`errMsg` is the rejection's message otherwise.  Note that it clears
`analysis` and `error` but leaves `reportSuccess` untouched. -/
def startCamera (ok : Bool) (errMsg : String) (st : UIState) : UIState :=
  if ok then
    { st with isCameraActive := true, selectedFile := none
              previewUrl := none, analysis := none, error := none }
  else
    { st with error := some ("Failed to access camera: " ++ errMsg) }

/-- App.tsx 52-59: `stopCamera`. -/
def stopCamera (st : UIState) : UIState :=
  { st with isCameraActive := false }

/-- App.tsx 61-84: `capturePhoto`; `captured` is the base64 content of the
JPEG blob when canvas capture succeeds (`canvas.toBlob` gave a blob), `none`
otherwise.  The new file is `new File([blob], "camera-capture.jpg",
{ type: "image/jpeg" })`; on success `stopCamera()` runs.  The Take Photo
button is rendered only while the camera is active (App.tsx 282-311), so the
transition fires only then. -/
def capturePhoto (captured : Option String) (st : UIState) : UIState :=
  if !st.isCameraActive then st
  else
    match captured with
    | some content =>
      let file : ImageFile :=
        { name := "camera-capture.jpg", type := "image/jpeg", base64 := content }
      stopCamera { st with selectedFile := some file
                           previewUrl := some (createObjectURL file) }
    | none => st

/-- App.tsx 388: the Analyze button is disabled without a file or while
analyzing. -/
def analyzeButtonDisabled (st : UIState) : Bool :=
  st.selectedFile.isNone || st.isAnalyzing

/-- App.tsx 111-115: clicking Analyze (guard `if (!selectedFile) return`,
then `setIsAnalyzing(true); setError(null)`). -/
def analyzeClick (st : UIState) : UIState :=
  if analyzeButtonDisabled st then st
  else if st.selectedFile.isNone then st
  else { st with isAnalyzing := true, error := none }

/-- App.tsx 121-183: completion of the analysis call.  `resp` is the parsed
response: `some r` when the model answered with schema-valid JSON (the schema
types `similarityPercentage` as a number but bounds it nowhere), `none` when
the call failed or returned no text; `errMsg` is the failure's message. -/
def analyzeComplete (resp : Option AnalysisResult) (errMsg : String)
    (st : UIState) : UIState :=
  match resp with
  | some r => { st with analysis := some r, isAnalyzing := false }
  | none =>
    { st with
        error := some (if errMsg.isEmpty then "Failed to analyze logo" else errMsg)
        isAnalyzing := false }

/-- App.tsx 500: `disabled={isReporting || reportSuccess}` on the report
button. -/
def reportButtonDisabled (st : UIState) : Bool :=
  st.isReporting || st.reportSuccess

/-- App.tsx 190-199: clicking Report Suspicious Logo (guard
`if (!analysis || !selectedFile) return`, then `setIsReporting(true);
setError(null)`). -/
def reportClick (st : UIState) : UIState :=
  if reportButtonDisabled st then st
  else if st.analysis.isNone || st.selectedFile.isNone then st
  else { st with isReporting := true, error := none }

/-- App.tsx 201-231: completion of the report fetch; on a 2xx response
`setReportSuccess(true)`, otherwise the thrown message lands in `error`. -/
def reportComplete (ok : Bool) (errMsg : String) (st : UIState) : UIState :=
  if ok then { st with reportSuccess := true, isReporting := false }
  else { st with error := some errMsg, isReporting := false }

/-- App.tsx 209-213: the JSON body `reportLogo` sends — the analysis
snapshot, the FULL data URL (`reader.result` whole), and the file's type. -/
def reportRequestBody (a : AnalysisResult) (f : ImageFile) : ReportBody :=
  { analysis := .analysisObj a
    imageBase64 := .string (reportImagePayload f)
    mimeType := .string f.type }

/-- The UI events, each carrying the outcome of whatever external interaction
it involves. -/
inductive UIEvent where
  | fileSelect (f : Option ImageFile)
  | drop (f : Option ImageFile)
  | cameraStart (ok : Bool) (errMsg : String)
  | cameraStop
  | photoCapture (captured : Option String)
  | analyzeStart
  | analyzeDone (resp : Option AnalysisResult) (errMsg : String)
  | reportStart
  | reportDone (ok : Bool) (errMsg : String)
  deriving DecidableEq, Repr

def uiStep : UIEvent → UIState → UIState
  | .fileSelect f => handleFileSelect f
  | .drop f => handleDrop f
  | .cameraStart ok msg => startCamera ok msg
  | .cameraStop => stopCamera
  | .photoCapture c => capturePhoto c
  | .analyzeStart => analyzeClick
  | .analyzeDone r msg => analyzeComplete r msg
  | .reportStart => reportClick
  | .reportDone ok msg => reportComplete ok msg

/-- Events that select a new image: a file picked, an image file dropped, or
a photo captured. -/
def isNewImageEvent : UIEvent → Bool
  | .fileSelect (some _) => true
  | .drop (some f) => jsStartsWith "image/" f.type
  | .photoCapture (some _) => true
  | _ => false

/-! ## Concrete sample values used to instantiate the theorems -/

def demoAnalysis : AnalysisResult :=
  { brandName := "Acme", companyInfo := "A company"
    foundingBackground := "Founded in 1990", symbolicMeaning := "A bird"
    similarityPercentage := 95, originalityInterpretation := "Looks original" }

/-- A schema-valid inference response whose score lies outside 0-100. -/
def outOfRangeAnalysis : AnalysisResult :=
  { demoAnalysis with similarityPercentage := 150 }

def demoFile : ImageFile :=
  { name := "logo.png", type := "image/png", base64 := "aGVsbG8" }

def demoEnv : Env :=
  { FIREBASE_PROJECT_ID := some "proj"
    FIREBASE_CLIENT_EMAIL := some "svc"
    FIREBASE_PRIVATE_KEY := some "key" }

def noProjectEnv : Env :=
  { demoEnv with FIREBASE_PROJECT_ID := none }

/-- A UI state right after a first successful report submission. -/
def demoSuccessState : UIState :=
  { initialUIState with
      selectedFile := some demoFile
      previewUrl := some (createObjectURL demoFile)
      analysis := some demoAnalysis, reportSuccess := true }

/-- A UI state with a report request in flight. -/
def demoReportingState : UIState :=
  { initialUIState with
      selectedFile := some demoFile
      previewUrl := some (createObjectURL demoFile)
      analysis := some demoAnalysis, isReporting := true }

/-! ## C1 / C6 — the score-to-tier classification -/

/-- C1: the report renderer's classification is a pure function of the
similarity score with exactly two thresholds: scores `≥ 90` are the
authentic tier (emerald styling, CheckCircle icon), `70 ≤ s < 90` the
caution tier (amber styling, AlertTriangle icon), `s < 70` the suspicious
tier (red styling, ShieldAlert icon); 90 and 70 land in the higher tier. -/
theorem tier_classification_thresholds (s : Int) :
    (90 ≤ s →
      tierOf s = .authentic ∧
      scoreTextColor s = "text-emerald-600" ∧
      assessmentBoxClass s = "bg-emerald-50 border-emerald-100" ∧
      assessmentIcon s = .CheckCircle ∧
      assessmentHeadingColor s = "text-emerald-900" ∧
      assessmentTextColor s = "text-emerald-700") ∧
    (70 ≤ s → s < 90 →
      tierOf s = .caution ∧
      scoreTextColor s = "text-amber-600" ∧
      assessmentBoxClass s = "bg-amber-50 border-amber-100" ∧
      assessmentIcon s = .AlertTriangle ∧
      assessmentHeadingColor s = "text-amber-900" ∧
      assessmentTextColor s = "text-amber-700") ∧
    (s < 70 →
      tierOf s = .suspicious ∧
      scoreTextColor s = "text-red-600" ∧
      assessmentBoxClass s = "bg-red-50 border-red-100" ∧
      assessmentIcon s = .ShieldAlert ∧
      assessmentHeadingColor s = "text-red-900" ∧
      assessmentTextColor s = "text-red-700") := by
  unfold tierOf scoreTextColor assessmentBoxClass assessmentIcon
    assessmentHeadingColor assessmentTextColor
  refine ⟨fun h => ?_, fun h1 h2 => ?_, fun h => ?_⟩
  · simp [show s ≥ 90 from h]
  · simp [show ¬s ≥ 90 by omega, show s ≥ 70 from h1]
  · simp [show ¬s ≥ 90 by omega, show ¬s ≥ 70 by omega]

/-- Instantiation of `tier_classification_thresholds` at the boundary scores
90, 70 and at 69. -/
theorem tier_classification_thresholds_witness :
    (tierOf 90 = .authentic ∧ assessmentIcon 90 = .CheckCircle) ∧
    (tierOf 70 = .caution ∧ assessmentIcon 70 = .AlertTriangle) ∧
    (tierOf 69 = .suspicious ∧ assessmentIcon 69 = .ShieldAlert) :=
  ⟨⟨((tier_classification_thresholds 90).1 (by decide)).1,
    ((tier_classification_thresholds 90).1 (by decide)).2.2.2.1⟩,
   ⟨((tier_classification_thresholds 70).2.1 (by decide) (by decide)).1,
    ((tier_classification_thresholds 70).2.1 (by decide) (by decide)).2.2.2.1⟩,
   ⟨((tier_classification_thresholds 69).2.2 (by decide)).1,
    ((tier_classification_thresholds 69).2.2 (by decide)).2.2.2.1⟩⟩

/-- C6 as stated is false: a score of 89 is rendered in the caution tier
(amber, AlertTriangle), not the suspicious tier. -/
theorem score89_not_suspicious :
    tierOf 89 = .caution ∧ tierOf 89 ≠ .suspicious ∧
    assessmentIcon 89 = .AlertTriangle ∧ assessmentIcon 89 ≠ .ShieldAlert ∧
    scoreTextColor 89 = "text-amber-600" := by
  decide

/-- C6 amended: 89 and 90 fall on opposite sides of the 90 boundary (89 is
caution, 90 authentic), and 69 and 70 fall on opposite sides of the 70
boundary (69 suspicious, 70 caution). -/
theorem classification_boundaries :
    tierOf 89 = .caution ∧ tierOf 90 = .authentic ∧
    tierOf 69 = .suspicious ∧ tierOf 70 = .caution := by
  decide

/-! ## C2 / C3 / C4 / C9 — the report endpoint -/

/-- C2: a request body missing `analysis` or missing `imageBase64` gets a 400
`{ error }` response and leaves the server state — in particular the
`suspicious_logos` collection — unchanged. -/
theorem missing_fields_rejected (env : Env) (nextId : String) (writeOk : Bool)
    (writeErrMsg : String) (st : ServerState) (body : ReportBody)
    (h : body.analysis = .undefined ∨ body.imageBase64 = .undefined) :
    (reportLogoHandler env nextId writeOk writeErrMsg st body).1 =
      { status := 400, body := .errorBody "Missing required fields" } ∧
    (reportLogoHandler env nextId writeOk writeErrMsg st body).2 = st := by
  rcases h with h | h <;> simp [reportLogoHandler, h, JValue.truthy]

/-- Instantiation of `missing_fields_rejected` at a body with no `analysis`
field. -/
theorem missing_fields_rejected_witness :
    (reportLogoHandler demoEnv "r1" true "" initialServerState
        ⟨.undefined, .string "data:image/png;base64,aGVsbG8", .string "image/png"⟩).1 =
      { status := 400, body := .errorBody "Missing required fields" } ∧
    (reportLogoHandler demoEnv "r1" true "" initialServerState
        ⟨.undefined, .string "data:image/png;base64,aGVsbG8", .string "image/png"⟩).2 =
      initialServerState :=
  missing_fields_rejected demoEnv "r1" true "" initialServerState _ (Or.inl rfl)

/-- C3: with both required fields present, the Firebase handle available, and
the write succeeding, the handler appends exactly one document — the analysis
snapshot, the image payload, the mime type, the server-timestamp sentinel and
the fixed initial status `pending_review` — and answers 200 with
`{ success: true, reportId }`, `reportId` being that document's generated
id. -/
theorem report_happy_path (env : Env) (nextId : String) (writeErrMsg : String)
    (st : ServerState) (body : ReportBody)
    (hA : body.analysis.truthy = true) (hI : body.imageBase64.truthy = true)
    (hDb : st.firebaseInited = true ∨ credsOk env = true) :
    reportLogoHandler env nextId true writeErrMsg st body =
      ({ status := 200, body := .successBody true nextId },
       { firebaseInited := true
         docs := st.docs ++
           [(nextId,
             { analysis := body.analysis
               imageBase64 := body.imageBase64
               mimeType := body.mimeType
               reportedAt := .serverTimestamp
               status := "pending_review" })] }) := by
  have hdb : getFirebaseDb env st.firebaseInited = .ok true := by
    rcases hDb with h | h <;> simp [getFirebaseDb, h]
  simp [reportLogoHandler, hA, hI, hdb]

/-- Instantiation of `report_happy_path` at a concrete request. -/
theorem report_happy_path_witness :
    reportLogoHandler demoEnv "gen42" true "" initialServerState
        (reportRequestBody demoAnalysis demoFile) =
      ({ status := 200, body := .successBody true "gen42" },
       { firebaseInited := true
         docs := [("gen42",
           { analysis := .analysisObj demoAnalysis
             imageBase64 := .string (reportImagePayload demoFile)
             mimeType := .string "image/png"
             reportedAt := .serverTimestamp
             status := "pending_review" })] }) :=
  report_happy_path demoEnv "gen42" "" initialServerState
    (reportRequestBody demoAnalysis demoFile) (by decide) (by decide)
    (Or.inr (by decide))

/-- Invariant: while a Firebase credential is missing, no reachable server
state ever has the Firebase app initialised. -/
theorem firebase_never_inited (env : Env) (hc : credsOk env = false) :
    ∀ st : ServerState, Reachable env st → st.firebaseInited = false := by
  intro st h
  induction h with
  | init => rfl
  | step nextId writeOk writeErrMsg body hst ih =>
    unfold reportLogoHandler
    split
    · exact ih
    · simp [getFirebaseDb, ih, hc]

/-- C4: when one of the three Firebase credentials is absent from the
environment, any well-formed report request against any reachable server
state gets a 500 `{ error }` response — `getFirebaseDb`'s thrown message —
and the state, in particular the document collection, is unchanged. -/
theorem missing_creds_500 (env : Env) (nextId : String) (writeOk : Bool)
    (writeErrMsg : String) (st : ServerState) (body : ReportBody)
    (hcred : env.FIREBASE_PROJECT_ID = none ∨ env.FIREBASE_CLIENT_EMAIL = none ∨
      env.FIREBASE_PRIVATE_KEY = none)
    (hreach : Reachable env st)
    (hA : body.analysis.truthy = true) (hI : body.imageBase64.truthy = true) :
    (reportLogoHandler env nextId writeOk writeErrMsg st body).1 =
      { status := 500
        body := .errorBody
          "Firebase credentials are not fully configured in environment variables." } ∧
    (reportLogoHandler env nextId writeOk writeErrMsg st body).2 = st := by
  have hc : credsOk env = false := by
    rcases hcred with h | h | h <;>
      simp [credsOk, envTruthy, normalizedPrivateKey, h]
  have hni : st.firebaseInited = false := firebase_never_inited env hc st hreach
  simp [reportLogoHandler, hA, hI, getFirebaseDb, hni, hc]

/-- Instantiation of `missing_creds_500` at the initial server state with
`FIREBASE_PROJECT_ID` unset. -/
theorem missing_creds_500_witness :
    (reportLogoHandler noProjectEnv "r1" true "" initialServerState
        (reportRequestBody demoAnalysis demoFile)).1 =
      { status := 500
        body := .errorBody
          "Firebase credentials are not fully configured in environment variables." } ∧
    (reportLogoHandler noProjectEnv "r1" true "" initialServerState
        (reportRequestBody demoAnalysis demoFile)).2 = initialServerState :=
  missing_creds_500 noProjectEnv "r1" true "" initialServerState
    (reportRequestBody demoAnalysis demoFile) (Or.inl rfl) Reachable.init
    (by decide) (by decide)

/-- C9: `mimeType` is not required — a body carrying truthy `analysis` and
`imageBase64` but no `mimeType` field is never answered with 400, and on a
successful write the stored document's `mimeType` field is the `undefined`
value. -/
theorem mime_type_optional (env : Env) (nextId : String) (writeErrMsg : String)
    (st : ServerState) (a img : JValue)
    (hA : a.truthy = true) (hI : img.truthy = true)
    (hDb : st.firebaseInited = true ∨ credsOk env = true) :
    (∀ w : Bool, ∀ e : String,
      (reportLogoHandler env nextId w e st ⟨a, img, .undefined⟩).1.status ≠ 400) ∧
    (reportLogoHandler env nextId true writeErrMsg st ⟨a, img, .undefined⟩).2.docs =
      st.docs ++
        [(nextId,
          { analysis := a, imageBase64 := img, mimeType := .undefined
            reportedAt := .serverTimestamp, status := "pending_review" })] := by
  have hdb : getFirebaseDb env st.firebaseInited = .ok true := by
    rcases hDb with h | h <;> simp [getFirebaseDb, h]
  constructor
  · intro w e
    cases w <;> simp [reportLogoHandler, hA, hI, hdb]
  · simp [reportLogoHandler, hA, hI, hdb]

/-- Instantiation of `mime_type_optional` at a concrete request without
`mimeType`. -/
theorem mime_type_optional_witness :
    (reportLogoHandler demoEnv "r9" true "" initialServerState
        ⟨.analysisObj demoAnalysis, .string "data:image/png;base64,aGVsbG8",
         .undefined⟩).1.status ≠ 400 ∧
    (reportLogoHandler demoEnv "r9" true "" initialServerState
        ⟨.analysisObj demoAnalysis, .string "data:image/png;base64,aGVsbG8",
         .undefined⟩).2.docs =
      [("r9",
        { analysis := .analysisObj demoAnalysis
          imageBase64 := .string "data:image/png;base64,aGVsbG8"
          mimeType := .undefined
          reportedAt := .serverTimestamp, status := "pending_review" })] :=
  have h := mime_type_optional demoEnv "r9" "" initialServerState
    (.analysisObj demoAnalysis) (.string "data:image/png;base64,aGVsbG8")
    (by decide) (by decide) (Or.inr (by decide))
  ⟨h.1 true "", h.2⟩

/-! ## C5 / C7 / C8 — the UI state machine -/

/-- C5: after the first successful submission (`reportSuccess` true) the
report action is inert — a report click leaves the state unchanged — and
`reportSuccess` stays true under every event that is not a new image
selection, so no second submission can start before a new image; likewise a
click while a request is in flight (`isReporting` true) starts nothing. -/
theorem report_disabled_after_success (st : UIState) :
    (st.reportSuccess = true →
      uiStep .reportStart st = st ∧
      ∀ e : UIEvent, isNewImageEvent e = false → (uiStep e st).reportSuccess = true) ∧
    (st.isReporting = true → uiStep .reportStart st = st) := by
  constructor
  · intro h
    refine ⟨by simp [uiStep, reportClick, reportButtonDisabled, h], ?_⟩
    intro e he
    cases e with
    | fileSelect f =>
      cases f with
      | none => simpa [uiStep, handleFileSelect] using h
      | some file => simp [isNewImageEvent] at he
    | drop f =>
      cases f with
      | none => simpa [uiStep, handleDrop] using h
      | some file =>
        simp only [isNewImageEvent] at he
        simpa [uiStep, handleDrop, he] using h
    | cameraStart ok msg =>
      cases ok <;> simpa [uiStep, startCamera] using h
    | cameraStop => simpa [uiStep, stopCamera] using h
    | photoCapture c =>
      cases c with
      | none => simpa [uiStep, capturePhoto] using h
      | some content => simp [isNewImageEvent] at he
    | analyzeStart =>
      simp only [uiStep, analyzeClick]
      split
      · exact h
      · split
        · exact h
        · simpa using h
    | analyzeDone r msg =>
      cases r <;> simpa [uiStep, analyzeComplete] using h
    | reportStart =>
      simp [uiStep, reportClick, reportButtonDisabled, h]
    | reportDone ok msg =>
      cases ok <;> simp [uiStep, reportComplete, h]
  · intro h
    simp [uiStep, reportClick, reportButtonDisabled, h]

/-- Instantiation of `report_disabled_after_success`: after a successful
submission a report click is a no-op and starting the camera keeps the
action disabled; a click during an in-flight request is also a no-op. -/
theorem report_disabled_after_success_witness :
    uiStep .reportStart demoSuccessState = demoSuccessState ∧
    (uiStep (.cameraStart true "") demoSuccessState).reportSuccess = true ∧
    uiStep .reportStart demoReportingState = demoReportingState :=
  ⟨((report_disabled_after_success demoSuccessState).1 (by decide)).1,
   ((report_disabled_after_success demoSuccessState).1 (by decide)).2
     (.cameraStart true "") (by decide),
   (report_disabled_after_success demoReportingState).2 (by decide)⟩

/-- C7 as stated is false on the camera path: after a successful report, a
full camera flow — `startCamera` then `capturePhoto` — selects a new image
(`camera-capture.jpg`) yet leaves `reportSuccess` true, because neither
`startCamera` (App.tsx 42-46) nor `capturePhoto` (App.tsx 73-80) resets it. -/
theorem camera_capture_keeps_report_flag :
    (uiStep (.photoCapture (some "Zm9v"))
        (uiStep (.cameraStart true "") demoSuccessState)).selectedFile =
      some { name := "camera-capture.jpg", type := "image/jpeg", base64 := "Zm9v" } ∧
    (uiStep (.photoCapture (some "Zm9v"))
        (uiStep (.cameraStart true "") demoSuccessState)).reportSuccess = true := by
  decide

/-- C7 amended: a file-picker or drag-and-drop selection resets `analysis`,
`error` and `reportSuccess`; a camera selection resets `analysis` and
`error` (already at `startCamera`) but leaves `reportSuccess` unchanged. -/
theorem new_image_resets_state (st : UIState) (f : ImageFile) (content : String)
    (himg : jsStartsWith "image/" f.type = true) :
    (let st1 := handleFileSelect (some f) st
     st1.analysis = none ∧ st1.error = none ∧ st1.reportSuccess = false) ∧
    (let st2 := handleDrop (some f) st
     st2.analysis = none ∧ st2.error = none ∧ st2.reportSuccess = false) ∧
    (let st3 := capturePhoto (some content) (startCamera true "" st)
     st3.analysis = none ∧ st3.error = none ∧
       st3.reportSuccess = st.reportSuccess ∧
       st3.selectedFile =
         some { name := "camera-capture.jpg", type := "image/jpeg"
                base64 := content }) := by
  refine ⟨by simp [handleFileSelect], by simp [handleDrop, himg], ?_⟩
  simp [capturePhoto, startCamera, stopCamera]

/-- Instantiation of `new_image_resets_state` at a state holding an analysis
and a successful report. -/
theorem new_image_resets_state_witness :
    (handleFileSelect (some demoFile) demoSuccessState).reportSuccess = false ∧
    (handleDrop (some demoFile) demoSuccessState).analysis = none ∧
    (capturePhoto (some "Zm9v")
      (startCamera true "" demoSuccessState)).reportSuccess = true :=
  have h := new_image_resets_state demoSuccessState demoFile "Zm9v" (by decide)
  ⟨h.1.2.2, h.2.1.1, by rw [h.2.2.2.2.1]; rfl⟩

/-- C8 as stated is false: the analysis client applies no range check, so a
schema-valid inference response carrying `similarityPercentage = 150` is
held in UI state as-is after a normal select-analyze flow. -/
theorem out_of_range_score_held :
    (uiStep (.analyzeDone (some outOfRangeAnalysis) "")
        (uiStep .analyzeStart
          (uiStep (.fileSelect (some demoFile)) initialUIState))).analysis =
      some outOfRangeAnalysis ∧
    outOfRangeAnalysis.similarityPercentage = 150 ∧
    ¬(0 ≤ outOfRangeAnalysis.similarityPercentage ∧
      outOfRangeAnalysis.similarityPercentage ≤ 100) := by
  decide

/-- C8 amended: the client stores whatever number the schema-valid response
carries — the held `AnalysisResult` is exactly the parsed response, its
`similarityPercentage` unvalidated. -/
theorem analysis_stored_unvalidated (st : UIState) (r : AnalysisResult)
    (errMsg : String) :
    (analyzeComplete (some r) errMsg st).analysis = some r ∧
    ((analyzeComplete (some r) errMsg st).analysis.map
        AnalysisResult.similarityPercentage) = some r.similarityPercentage := by
  simp [analyzeComplete]

/-! ## C10 — image payload formats of the two paths -/

/-- Splitting the data URL at the comma isolates the bare base64 payload,
provided neither the mime type nor the payload contains a comma. -/
theorem analyzeImagePayload_eq (f : ImageFile)
    (ht : ',' ∉ f.type.data) (hb : ',' ∉ f.base64.data) :
    analyzeImagePayload f = some f.base64 := by
  have h1 : (dataUrl f).data =
      ("data:".data ++ f.type.data ++ ";base64".data) ++ ',' :: f.base64.data := by
    simp [dataUrl, String.data_append]
  have hpre : ∀ x ∈ ("data:".data ++ f.type.data ++ ";base64".data),
      ¬((x == ',') = true) := by
    intro x hx
    simp only [beq_iff_eq]
    intro hx'
    subst hx'
    rcases List.mem_append.1 hx with hx | hx
    · rcases List.mem_append.1 hx with hx | hx
      · exact absurd hx (by decide)
      · exact ht hx
    · exact absurd hx (by decide)
  have hsplit : (dataUrl f).data.splitOn ',' =
      [("data:".data ++ f.type.data ++ ";base64".data), f.base64.data] := by
    rw [List.splitOn, h1,
      List.splitOnP_first _ _ hpre ',' (by simp) f.base64.data,
      List.splitOnP_eq_single _ _
        (by intro x hx; simp only [beq_iff_eq]; intro h; subst h; exact hb hx)]
  simp [analyzeImagePayload, jsSplit, hsplit]

/-- The full data URL is never the bare payload: it is 13 characters
longer. -/
theorem dataUrl_ne_base64 (f : ImageFile) : dataUrl f ≠ f.base64 := by
  intro heq
  have hc := congrArg String.length heq
  have l1 : "data:".length = 5 := rfl
  have l2 : ";base64,".length = 8 := rfl
  simp [dataUrl, String.length_append, l1, l2] at hc

/-- A data URL is a nonempty string. -/
theorem dataUrl_not_isEmpty (f : ImageFile) : (dataUrl f).isEmpty = false := by
  by_contra h
  have h' : (dataUrl f).isEmpty = true := by
    revert h; cases (dataUrl f).isEmpty <;> simp
  have he := (String.isEmpty_iff _).1 h'
  have hc := congrArg String.length he
  have l1 : "data:".length = 5 := rfl
  have l2 : ";base64,".length = 8 := rfl
  simp [dataUrl, String.length_append, l1, l2] at hc

/-- C10: the two paths send the image in different formats — the analysis
path strips the `data:<mime>;base64,` prefix and hands the model the bare
payload, while the report path sends the full data URL, which is exactly
what lands in the stored document's `imageBase64` field. -/
theorem report_vs_analyze_payload (f : ImageFile) (a : AnalysisResult)
    (env : Env) (nextId errMsg : String) (st : ServerState)
    (ht : ',' ∉ f.type.data) (hb : ',' ∉ f.base64.data)
    (hDb : st.firebaseInited = true ∨ credsOk env = true) :
    analyzeImagePayload f = some f.base64 ∧
    reportImagePayload f = "data:" ++ f.type ++ ";base64," ++ f.base64 ∧
    (reportRequestBody a f).imageBase64 = .string (dataUrl f) ∧
    reportImagePayload f ≠ f.base64 ∧
    (reportLogoHandler env nextId true errMsg st (reportRequestBody a f)).2.docs =
      st.docs ++ [(nextId,
        { analysis := .analysisObj a, imageBase64 := .string (dataUrl f)
          mimeType := .string f.type, reportedAt := .serverTimestamp
          status := "pending_review" })] := by
  refine ⟨analyzeImagePayload_eq f ht hb, rfl, rfl, dataUrl_ne_base64 f, ?_⟩
  have hdb : getFirebaseDb env st.firebaseInited = .ok true := by
    rcases hDb with h | h <;> simp [getFirebaseDb, h]
  simp [reportLogoHandler, reportRequestBody, reportImagePayload,
    JValue.truthy, dataUrl_not_isEmpty f, hdb]

/-- Instantiation of `report_vs_analyze_payload` at a concrete PNG file. -/
theorem report_vs_analyze_payload_witness :
    analyzeImagePayload demoFile = some "aGVsbG8" ∧
    reportImagePayload demoFile = "data:image/png;base64,aGVsbG8" ∧
    reportImagePayload demoFile ≠ "aGVsbG8" :=
  have h := report_vs_analyze_payload demoFile demoAnalysis demoEnv "r10" ""
    initialServerState (by decide) (by decide) (Or.inr (by decide))
  ⟨h.1, by rw [h.2.1]; rfl, h.2.2.2.1⟩

end BrandLens
